import Mathlib

/-! # A verification development for `main.cpp`

The program defines a fixed-dimension numeric `Point<coordinate_T, num_dimensions>`
with compile-time and run-time accessors, the deducing helper `make_point`, the string
triple `List3` with `make_list_3`, the variadic printer `print_all`, and `main`.

Conventions of the embedding:

* compile-time rejections (`static_assert`, ill-formed initialisation) are values of
  `StaticError`, returned through `Except`;
* the one run-time failure is the thrown `PointCoordIndexOutOfRangeError`;
* a C++ `int` is a Lean `Int` (no arithmetic is performed on indices, only comparisons);
* a reference to a coordinate is the position it designates inside `m_coordinates`;
  reading or writing through a reference that designates no element is undefined and
  has no result (`none`);
* `std::cout` is the sequence of insertions performed on it.
-/

namespace Packs

/-! ## Types of the language that the program manipulates -/

/-- Diagnostics issued at compile time. -/
inductive StaticError where
  /-- A failed `static_assert`, with its message. -/
  | static_assert (message : String)
  /-- A narrowing conversion inside a braced initialiser. -/
  | narrowing_conversion
  /-- No implicit conversion between the two types exists. -/
  | no_conversion
  /-- More initialiser clauses than the aggregate has elements. -/
  | too_many_initializers
  /-- A non-const reference bound to a const lvalue. -/
  | discards_qualifiers
  deriving DecidableEq, Repr

/-- Unqualified object types used as template arguments: two signed integer types,
the three floating-point types, and one class type that is not a number. -/
inductive Fundamental where
  | int
  | long_long
  | float
  | double
  | long_double
  | std_string
  deriving DecidableEq, Repr

/-- Values of the floating-point types: a signed binary fraction
`mantissa * 2 ^ exponent`, an infinity, or a NaN. -/
inductive FloatingValue where
  | finite (negative : Bool) (mantissa : Nat) (exponent : Int)
  | infinity (negative : Bool)
  | nan
  deriving DecidableEq, Repr

/-- Carrier of the values of an unqualified type. Every floating-point type draws its
values from `FloatingValue`, every integer type from `Int`. -/
@[reducible]
def Fundamental.val : Fundamental → Type
  | .int => Int
  | .long_long => Int
  | .float => FloatingValue
  | .double => FloatingValue
  | .long_double => FloatingValue
  | .std_string => String

/-- Result of zero-initialisation for each type. -/
def Fundamental.zero : (b : Fundamental) → b.val
  | .int => (0 : Int)
  | .long_long => (0 : Int)
  | .float => FloatingValue.finite false 0 0
  | .double => FloatingValue.finite false 0 0
  | .long_double => FloatingValue.finite false 0 0
  | .std_string => ""

/-- Reference category of a type. -/
inductive RefKind where
  | none
  | lvalue
  | rvalue
  deriving DecidableEq, Repr

/-- A possibly const-qualified, possibly reference type. For a reference type
`const_qualified` is the qualification of the referred-to type. -/
structure CppType where
  base : Fundamental
  const_qualified : Bool
  ref : RefKind
  deriving DecidableEq, Repr

/-- Values stored in an object of the given type. -/
@[reducible]
def CppType.val (t : CppType) : Type := t.base.val

/-- Models `std::is_reference`. -/
def CppType.is_reference (t : CppType) : Bool :=
  match t.ref with
  | .none => false
  | _ => true

/-- Models `std::is_const`: a reference type is never const. -/
def CppType.is_const (t : CppType) : Bool :=
  !t.is_reference && t.const_qualified

/-- Models `std::is_integral` (cv-qualification is ignored, references are not integral). -/
def CppType.is_integral (t : CppType) : Bool :=
  !t.is_reference &&
    (match t.base with
     | .int => true
     | .long_long => true
     | _ => false)

/-- Models `std::is_floating_point`. -/
def CppType.is_floating_point (t : CppType) : Bool :=
  !t.is_reference &&
    (match t.base with
     | .float => true
     | .double => true
     | .long_double => true
     | _ => false)

/-- Models `std::remove_reference`. -/
def remove_reference (t : CppType) : CppType :=
  { t with ref := RefKind.none }

/-- Models `std::remove_const`: only a top-level const is removed, so a reference
type is left as it is. -/
def remove_const (t : CppType) : CppType :=
  if t.is_reference then t else { t with const_qualified := false }

/-- Implicit conversion of a run-time value inside a braced initialiser
(`m_coordinates{ ... }`): the identity and the widening conversions keep the value,
every other arithmetic conversion is narrowing and ill-formed there, and the class
type converts to and from no number. -/
def list_init_convert : (src dst : Fundamental) → src.val → Except StaticError dst.val
  | .int, .int, v => .ok v
  | .int, .long_long, v => .ok v
  | .long_long, .long_long, v => .ok v
  | .float, .float, v => .ok v
  | .float, .double, v => .ok v
  | .float, .long_double, v => .ok v
  | .double, .double, v => .ok v
  | .double, .long_double, v => .ok v
  | .long_double, .long_double, v => .ok v
  | .std_string, .std_string, v => .ok v
  | .std_string, _, _ => .error .no_conversion
  | _, .std_string, _ => .error .no_conversion
  | _, _, _ => .error .narrowing_conversion

/-! ## The exception class -/

/-- Base class `std::out_of_range`: it stores the message given at construction. -/
structure std_out_of_range where
  what_arg : String
  deriving DecidableEq, Repr

/-- Base-class `what()`: the stored message. -/
def std_out_of_range.what (e : std_out_of_range) : String := e.what_arg

/-- Class `PointCoordIndexOutOfRangeError : std::out_of_range`. -/
structure PointCoordIndexOutOfRangeError where
  base : std_out_of_range
  deriving DecidableEq, Repr

/-- The constructor `PointCoordIndexOutOfRangeError()`: passes `""` to the base. -/
def PointCoordIndexOutOfRangeError.ctor : PointCoordIndexOutOfRangeError :=
  { base := { what_arg := "" } }

/-- The override of `what()`. -/
def PointCoordIndexOutOfRangeError.what (_e : PointCoordIndexOutOfRangeError) : String :=
  "Point coordinate index is out of range"

/-! ## `coords_e` -/

/-- Scoped enumeration `enum class coords_e : int`: a value of the underlying type. -/
structure coords_e where
  underlying : Int
  deriving DecidableEq, Repr

/-- Enumerator `x = 0`. -/
def coords_e.x : coords_e := { underlying := 0 }

/-- Enumerator `y = 1`. -/
def coords_e.y : coords_e := { underlying := 1 }

/-- Enumerator `z = 2`. -/
def coords_e.z : coords_e := { underlying := 2 }

/-- Models `static_cast<int>(coord_name)`. -/
def coords_e.to_int (coord_name : coords_e) : Int := coord_name.underlying

/-! ## `Point` -/

/-- The four class-scope `static_assert`s of `Point`, in source order. -/
def Point.static_asserts (coordinate_T : CppType) (num_dimensions : Int) :
    Except StaticError Unit :=
  if ¬ (num_dimensions ≥ 1) then
    .error (.static_assert "Must have at least 1 dimension")
  else if ¬ (coordinate_T.is_integral || coordinate_T.is_floating_point) then
    .error (.static_assert "Must be a number")
  else if ¬ (!coordinate_T.is_const) then
    .error (.static_assert "Point value must not be const")
  else if ¬ (!coordinate_T.is_reference) then
    .error (.static_assert "Point value must not be a reference")
  else
    .ok ()

/-- Class template `Point<coordinate_T, num_dimensions>`: the array member
`std::array<coordinate_T, num_dimensions> m_coordinates`, of exactly `num_dimensions`
elements, in an instantiation that passes the class-scope assertions. -/
structure Point (coordinate_T : CppType) (num_dimensions : Int) where
  m_coordinates : List coordinate_T.val
  size_eq : (m_coordinates.length : Int) = num_dimensions
  instantiated : Point.static_asserts coordinate_T num_dimensions = .ok ()

/-- A `coordinate_T&`: the position of the designated element of `m_coordinates`. -/
structure Ref where
  position : Int
  deriving DecidableEq, Repr

/-- A `const coordinate_T&`: the position of the designated element. -/
structure ConstRef where
  position : Int
  deriving DecidableEq, Repr

/-- Outcome of a call of the run-time checked accessor: the returned reference or the
thrown exception, together with the receiver as it is when control leaves the call. -/
structure Call (coordinate_T : CppType) (num_dimensions : Int) where
  result : Except PointCoordIndexOutOfRangeError Ref
  receiver : Point coordinate_T num_dimensions

/-- Binding of the lvalue `this->m_coordinates[coordinate_index]` that an accessor
returns to a reference of its declared return type. Inside a `const&`-qualified member
the element is a const lvalue, to which a non-const `coordinate_T&` does not bind. -/
def bind_returned_element (member_is_const return_type_is_const : Bool) :
    Except StaticError Unit :=
  if member_is_const && !return_type_is_const then
    .error .discards_qualifiers
  else
    .ok ()

namespace Point

variable {coordinate_T : CppType} {num_dimensions : Int}

/-- Element of `m_coordinates` at an `int` position; nothing is there when the position
is outside the array. -/
def element (p : Point coordinate_T num_dimensions) (position : Int) :
    Option coordinate_T.val :=
  if 0 ≤ position then p.m_coordinates[position.toNat]? else none

/-- Reading through a `coordinate_T&`. -/
def load (p : Point coordinate_T num_dimensions) (r : Ref) : Option coordinate_T.val :=
  p.element r.position

/-- Reading through a `const coordinate_T&`. -/
def load_const (p : Point coordinate_T num_dimensions) (r : ConstRef) :
    Option coordinate_T.val :=
  p.element r.position

/-- Assignment through a `coordinate_T&`: the designated element is replaced. -/
def store (p : Point coordinate_T num_dimensions) (r : Ref) (v : coordinate_T.val) :
    Option (Point coordinate_T num_dimensions) :=
  if 0 ≤ r.position ∧ r.position < num_dimensions then
    some { m_coordinates := p.m_coordinates.set r.position.toNat v
           size_eq := by rw [List.length_set]; exact p.size_eq
           instantiated := p.instantiated }
  else
    none

/-- Member `template <int coordinate_index> const coordinate_T& at() const&`. -/
def at_idx_const (_p : Point coordinate_T num_dimensions) (coordinate_index : Int) :
    Except StaticError ConstRef :=
  if coordinate_index ≥ 0 ∧ coordinate_index < num_dimensions then
    .ok { position := coordinate_index }
  else
    .error (.static_assert "\"get\" index out of range.")

/-- Member `template <int coordinate_index> coordinate_T& at() &`. -/
def at_idx (_p : Point coordinate_T num_dimensions) (coordinate_index : Int) :
    Except StaticError Ref :=
  if coordinate_index ≥ 0 ∧ coordinate_index < num_dimensions then
    .ok { position := coordinate_index }
  else
    .error (.static_assert "\"get\" index out of range.")

/-- Member `template <coords_e coord_name> const coordinate_T& at() const&`. -/
def at_coord_const (p : Point coordinate_T num_dimensions) (coord_name : coords_e) :
    Except StaticError ConstRef :=
  p.at_idx_const coord_name.to_int

/-- Member `template <coords_e coord_name> coordinate_T& at() &`. -/
def at_coord (p : Point coordinate_T num_dimensions) (coord_name : coords_e) :
    Except StaticError Ref :=
  p.at_idx coord_name.to_int

/-- Member `coordinate_T& at(const int coordinate_index) const&`. The member is
`const&`-qualified and its declared return type is the non-const `coordinate_T&`, so the
binding of the returned element is checked first, when the member is instantiated by a
call; the body follows as the source writes it. -/
def at_const (p : Point coordinate_T num_dimensions) (coordinate_index : Int) :
    Except StaticError (Call coordinate_T num_dimensions) :=
  match bind_returned_element true false with
  | .error e => .error e
  | .ok _ =>
    if coordinate_index < 0 ∨ coordinate_index ≥ num_dimensions then
      .ok { result := .error PointCoordIndexOutOfRangeError.ctor, receiver := p }
    else
      .ok { result := .ok { position := coordinate_index }, receiver := p }

/-- Member `coordinate_T& at(const int coordinate_index) &`. -/
def at_ (p : Point coordinate_T num_dimensions) (coordinate_index : Int) :
    Call coordinate_T num_dimensions :=
  if coordinate_index < 0 ∨ coordinate_index ≥ num_dimensions then
    { result := .error PointCoordIndexOutOfRangeError.ctor, receiver := p }
  else
    { result := .ok { position := coordinate_index }, receiver := p }

/-- Member `const coordinate_T& operator[](const int coordinate_index) const&`. -/
def subscript_const (_p : Point coordinate_T num_dimensions) (coordinate_index : Int) :
    ConstRef :=
  { position := coordinate_index }

/-- Member `coordinate_T& operator[](const int coordinate_index) &`. -/
def subscript (_p : Point coordinate_T num_dimensions) (coordinate_index : Int) : Ref :=
  { position := coordinate_index }

end Point

/-! ## Construction -/

/-- An argument expression of a call: its type, whether that type is const-qualified,
its value category, and its value. -/
structure Arg where
  type : Fundamental
  const_qualified : Bool
  is_lvalue : Bool
  value : type.val

/-- The type `decltype(param)` of a forwarding-reference parameter `T&& param` bound to
the argument: an lvalue reference for an lvalue, an rvalue reference otherwise. -/
def Arg.decltype (a : Arg) : CppType :=
  { base := a.type
    const_qualified := a.const_qualified
    ref := if a.is_lvalue then RefKind.lvalue else RefKind.rvalue }

/-- Element-wise conversion of the initialiser clauses of `m_coordinates{ ... }` to the
element type, left to right. -/
def init_elements (dst : Fundamental) : List Arg → Except StaticError (List dst.val)
  | [] => .ok []
  | a :: rest =>
    match list_init_convert a.type dst a.value with
    | .error e => .error e
    | .ok v =>
      match init_elements dst rest with
      | .error e => .error e
      | .ok vs => .ok (v :: vs)

/-- Aggregate initialisation of `std::array<coordinate_T, num_dimensions>` from the
clauses: more clauses than elements is ill-formed, and elements without a clause are
value-initialised. -/
def std_array_init (coordinate_T : CppType) (num_dimensions : Int) (coordinates : List Arg) :
    Except StaticError (List coordinate_T.val) :=
  if (coordinates.length : Int) > num_dimensions then
    .error .too_many_initializers
  else
    match init_elements coordinate_T.base coordinates with
    | .error e => .error e
    | .ok vs =>
      .ok (vs ++ List.replicate (num_dimensions.toNat - vs.length) coordinate_T.base.zero)

theorem init_elements_length (dst : Fundamental) :
    ∀ (coordinates : List Arg) (vs : List dst.val),
      init_elements dst coordinates = .ok vs → vs.length = coordinates.length
  | [], vs, h => by
    simp only [init_elements, Except.ok.injEq] at h
    subst h
    rfl
  | a :: rest, vs, h => by
    simp only [init_elements] at h
    split at h
    · cases h
    · split at h
      · cases h
      · rename_i ws hws
        simp only [Except.ok.injEq] at h
        subst h
        simp [init_elements_length dst rest ws hws]

theorem std_array_init_length (coordinate_T : CppType) (num_dimensions : Int)
    (coordinates : List Arg) (values : List coordinate_T.val)
    (h : std_array_init coordinate_T num_dimensions coordinates = .ok values) :
    (values.length : Int) = num_dimensions := by
  unfold std_array_init at h
  split at h
  · cases h
  · rename_i hle
    split at h
    · cases h
    · rename_i vs hvs
      simp only [Except.ok.injEq] at h
      subst h
      have hl := init_elements_length coordinate_T.base coordinates vs hvs
      simp only [List.length_append, List.length_replicate]
      omega

/-- The constructor `template <class... Types> explicit constexpr Point(Types&&... coordinates)`,
in an instantiation `Point<coordinate_T, num_dimensions>`: the class-scope assertions,
the member initialiser `m_coordinates{ std::forward<Types>(coordinates)... }`, and the
assertion of the constructor body. -/
def Point.ctor (coordinate_T : CppType) (num_dimensions : Int) (coordinates : List Arg) :
    Except StaticError (Point coordinate_T num_dimensions) :=
  match hs : Point.static_asserts coordinate_T num_dimensions with
  | .error e => .error e
  | .ok _ =>
    match hi : std_array_init coordinate_T num_dimensions coordinates with
    | .error e => .error e
    | .ok values =>
      if (coordinates.length : Int) = num_dimensions then
        .ok { m_coordinates := values
              size_eq := std_array_init_length coordinate_T num_dimensions coordinates values hi
              instantiated := hs }
      else
        .error (.static_assert "Wrong number of initializer list values for Point")

namespace Point

variable {coordinate_T : CppType} {num_dimensions : Int}

/-- The constructor `constexpr Point() = default;` run on the storage of the object: it
gives `m_coordinates` no initialiser, so the elements keep what the storage holds. -/
def ctor_default (storage : Point coordinate_T num_dimensions) :
    Point coordinate_T num_dimensions :=
  storage

/-- Zero-initialisation of the storage of the object. -/
def zero_init (storage : Point coordinate_T num_dimensions) :
    Point coordinate_T num_dimensions :=
  { m_coordinates := List.replicate num_dimensions.toNat coordinate_T.base.zero
    size_eq := by
      have := storage.size_eq
      rw [List.length_replicate]
      omega
    instantiated := storage.instantiated }

/-- The form `Point{}` / `new Point{}`: value-initialisation, which zero-initialises the
object and then runs the defaulted constructor. -/
def value_init (storage : Point coordinate_T num_dimensions) :
    Point coordinate_T num_dimensions :=
  ctor_default (zero_init storage)

/-- The form `Point p;` / `new Point`: default-initialisation, which only runs the
defaulted constructor. -/
def default_init (storage : Point coordinate_T num_dimensions) :
    Point coordinate_T num_dimensions :=
  ctor_default storage

end Point

/-! ## `make_point` -/

/-- The alias `clean_first_typename` of `make_point`. -/
def clean_first_typename (first_arg : Arg) : CppType :=
  remove_const (remove_reference first_arg.decltype)

/-- Function template `make_point(FirstArg_T&& first_arg, Args_T&&... args)`. Inside the
body `first_arg` is named, hence an lvalue; the rest of the pack is forwarded. -/
def make_point (first_arg : Arg) (args : List Arg) :
    Except StaticError (Point (clean_first_typename first_arg) ((args.length : Int) + 1)) :=
  Point.ctor (clean_first_typename first_arg) ((args.length : Int) + 1)
    ({ first_arg with is_lvalue := true } :: args)

/-! ## `print_all` -/

/-- One `operator<<` applied to `std::cout`: either a string literal of the function
body or an element of the pack. -/
inductive Insertion (Elem : Type) where
  | literal (text : String)
  | element (elem : Elem)
  deriving DecidableEq, Repr

/-- Characters that one insertion writes, given the formatting of elements. -/
def Insertion.text {Elem : Type} (format : Elem → String) : Insertion Elem → String
  | .literal text => text
  | .element elem => format elem

/-- Whether the insertion is that of the given string literal. -/
def Insertion.is_literal {Elem : Type} (text : String) : Insertion Elem → Bool
  | .literal t => t == text
  | .element _ => false

/-- Whether the insertion is that of a pack element. -/
def Insertion.is_element {Elem : Type} : Insertion Elem → Bool
  | .literal _ => false
  | .element _ => true

/-- The characters written by a sequence of insertions. -/
def written {Elem : Type} (format : Elem → String) (cout : List (Insertion Elem)) : String :=
  String.join (cout.map (Insertion.text format))

/-- Function templates `print_all_impl<num_elems>`: the overload without parameters and
the recursive overload. The stream is threaded through as the list of insertions. -/
def print_all_impl {Elem : Type} (num_elems : Int) :
    List Elem → List (Insertion Elem) → List (Insertion Elem)
  | [], cout => cout
  | elem :: template_parameter_pack, cout =>
    let num_elems_left : Int := template_parameter_pack.length
    let cout := if num_elems = num_elems_left then cout ++ [.literal "\x7b "] else cout
    let cout := cout ++ [.element elem]
    let cout := if num_elems_left = 0 then cout ++ [.literal " \x7d"] else cout ++ [.literal ", "]
    print_all_impl num_elems template_parameter_pack cout

/-- Function template `print_all(elem, template_parameter_pack...)`. -/
def print_all {Elem : Type} (elem : Elem) (template_parameter_pack : List Elem)
    (cout : List (Insertion Elem)) : List (Insertion Elem) :=
  let original_num_elems : Int := template_parameter_pack.length
  print_all_impl original_num_elems (elem :: template_parameter_pack) cout

/-! ## Sample values -/

/-- The type `int`. -/
abbrev int_type : CppType := { base := .int, const_qualified := false, ref := .none }

/-- The type `double`. -/
abbrev double_type : CppType := { base := .double, const_qualified := false, ref := .none }

/-- A prvalue argument of a non-const type. -/
def Arg.prvalue (type : Fundamental) (value : type.val) : Arg :=
  { type := type, const_qualified := false, is_lvalue := false, value := value }

/-- An argument of the element type of a `Point`, with the given qualification and
value category. -/
def Arg.of_element (coordinate_T : CppType) (q : Bool × Bool × coordinate_T.val) : Arg :=
  { type := coordinate_T.base, const_qualified := q.1, is_lvalue := q.2.1, value := q.2.2 }

/-- The object `Point<int, 3>{ 1, 2, 3 }`. -/
def point_1_2_3 : Point int_type 3 :=
  { m_coordinates := ([1, 2, 3] : List Int), size_eq := rfl, instantiated := rfl }

/-- The `double` nearest to 7.8. -/
def double_7_8 : FloatingValue := .finite false 8782019273372467 (-50)

/-- The `double` nearest to 9.8. -/
def double_9_8 : FloatingValue := .finite false 2758454771764429 (-48)

/-- The `double` nearest to 3.14. -/
def double_3_14 : FloatingValue := .finite false 7070651414971679 (-51)

/-- The object that `make_point(7.8, 9.8, 3.14)` returns. -/
def point_7_8_9_8_3_14 : Point double_type 3 :=
  { m_coordinates := ([double_7_8, double_9_8, double_3_14] : List FloatingValue)
    size_eq := rfl
    instantiated := rfl }

/-! ## `List3` and `make_list_3` -/

/-- Class `List3`: three `std::string` members. -/
structure List3 where
  m_one : String
  m_two : String
  m_three : String
  deriving DecidableEq, Repr

/-- The constructor `List3(std::string one, std::string two, std::string three)`. -/
def List3.ctor (one two three : String) : List3 :=
  { m_one := one, m_two := two, m_three := three }

/-- Member `one()`. -/
def List3.one (l : List3) : String := l.m_one

/-- Member `two()`. -/
def List3.two (l : List3) : String := l.m_two

/-- Member `three()`. -/
def List3.three (l : List3) : String := l.m_three

/-- Function template `make_list_3(ParamPack_T&&... template_parameter_pack)`. Each
argument is given by the characters of the `std::string` it converts to. -/
def make_list_3 (template_parameter_pack : List String) : Except StaticError List3 :=
  let num_elements_in_pack : Int := template_parameter_pack.length
  if num_elements_in_pack = 3 then
    match template_parameter_pack with
    | [one, two, three] => .ok (List3.ctor one two three)
    | _ => .error (.static_assert "Function requires 3 arguments.")
  else
    .error (.static_assert "Function requires 3 arguments.")

/-! ## Formatting of the values that `main` prints

`operator<<` of the standard library on a default-constructed stream state: integers in
decimal, characters and strings as they are, floating-point values by the conversion
`%g` with precision 6 (a `float` is first converted to `double`, which keeps its
value). -/

/-- Quotient of two naturals rounded to the nearest natural, ties to even. -/
def round_half_even (num den : Nat) : Nat :=
  let q := num / den
  let r := num % den
  if 2 * r < den then q
  else if den < 2 * r then q + 1
  else if q % 2 = 0 then q else q + 1

/-- Decimal digits of a natural, most significant first. -/
def decimal (n : Nat) : List Char := Nat.toDigits 10 n

/-- Least `k` from `k` on with `den ≤ num * 10 ^ k`, looked for among `fuel` candidates. -/
def first_scale (num den : Nat) : Nat → Nat → Nat
  | 0, k => k
  | fuel + 1, k => if den ≤ num * 10 ^ k then k else first_scale num den fuel (k + 1)

/-- Decimal exponent of the positive fraction `num / den`: the `X` with
`10 ^ X ≤ num / den < 10 ^ (X + 1)`. -/
def decimal_exponent (num den : Nat) : Int :=
  if den ≤ num then ((decimal (num / den)).length : Int) - 1
  else - (first_scale num den (decimal den).length 1 : Int)

/-- The fraction `num / den` multiplied by `10 ^ shift` and rounded. -/
def scaled (num den : Nat) (shift : Int) : Nat :=
  if 0 ≤ shift then round_half_even (num * 10 ^ shift.toNat) den
  else round_half_even num (den * 10 ^ (-shift).toNat)

/-- Removal of the zeros that end a digit sequence. -/
def strip_trailing_zeros (digits : List Char) : List Char :=
  (digits.reverse.dropWhile (fun c => c == '0')).reverse

/-- Zero padding on the left, up to the given width. -/
def pad_left (width : Nat) (digits : List Char) : List Char :=
  List.replicate (width - digits.length) '0' ++ digits

/-- Conversion `%g` with precision `P ≥ 1` of the positive fraction `num / den`: with `X`
the decimal exponent of the value rounded to `P` significant digits, fixed notation when
`-4 ≤ X < P` and scientific notation otherwise, trailing zeros of the fraction removed. -/
def format_g_positive (P : Nat) (num den : Nat) : String :=
  let X0 := decimal_exponent num den
  let D0 := scaled num den ((P : Int) - 1 - X0)
  let X := if 10 ^ P ≤ D0 then X0 + 1 else X0
  let D := if 10 ^ P ≤ D0 then D0 / 10 else D0
  if -4 ≤ X ∧ X < P then
    let frac_width := ((P : Int) - 1 - X).toNat
    let int_part := decimal (D / 10 ^ frac_width)
    let frac := strip_trailing_zeros (pad_left frac_width (decimal (D % 10 ^ frac_width)))
    let frac := if frac_width = 0 then [] else frac
    String.mk (int_part ++ (if frac.isEmpty then [] else '.' :: frac))
  else
    let digits := pad_left P (decimal D)
    let frac := strip_trailing_zeros digits.tail
    let e := decimal X.natAbs
    String.mk (digits.head?.toList ++ (if frac.isEmpty then [] else '.' :: frac) ++
      ['e', if X < 0 then '-' else '+'] ++ pad_left 2 e)

/-- Conversion `%g` with precision `P` of a floating-point value. -/
def format_g (P : Nat) : FloatingValue → String
  | .nan => "nan"
  | .infinity negative => if negative then "-inf" else "inf"
  | .finite negative mantissa exponent =>
    let sign := if negative then "-" else ""
    if mantissa = 0 then sign ++ "0"
    else
      let num := if 0 ≤ exponent then mantissa * 2 ^ exponent.toNat else mantissa
      let den := if 0 ≤ exponent then 1 else 2 ^ (-exponent).toNat
      sign ++ format_g_positive P num den

/-- Decimal text of an `int`. -/
def format_int (v : Int) : String :=
  if v < 0 then "-" ++ String.mk (decimal v.natAbs) else String.mk (decimal v.natAbs)

/-- A value handed to `print_all` in `main`, tagged with its static type. -/
inductive Printable where
  | int (v : Int)
  | c_str (characters : String)
  | float (v : FloatingValue)
  | double (v : FloatingValue)
  | char (c : Char)
  | std_string (s : String)
  deriving DecidableEq, Repr

/-- The characters that `std::cout << value` writes. -/
def Printable.format : Printable → String
  | .int v => format_int v
  | .c_str characters => characters
  | .float v => format_g 6 v
  | .double v => format_g 6 v
  | .char c => String.singleton c
  | .std_string s => s

/-! ## `main` -/

/-- The `float` 5.0f. -/
def float_5 : FloatingValue := .finite false 5 0

/-- The `double` nearest to 3.14159. -/
def double_3_14159 : FloatingValue := .finite false 3537115888337719 (-50)

/-- The `float` nearest to 9.8. -/
def float_9_8 : FloatingValue := .finite false 10276045 (-20)

/-- The `float` nearest to 3.141596. -/
def float_3_141596 : FloatingValue := .finite false 13176809 (-22)

/-- The `float` nearest to 7.8. -/
def float_7_8 : FloatingValue := .finite false 8178893 (-20)

/-- The `double` nearest to 3.141596. -/
def double_3_141596 : FloatingValue := .finite false 442140330467145 (-47)

/-- A run of the program: the insertions made on `std::cout`, and how control left
`main`, by a returned status or by an exception of the checked accessor. -/
structure Execution where
  cout : List (Insertion Printable)
  outcome : Except PointCoordIndexOutOfRangeError Int

/-- The function `main`. A compile-time rejection of one of its calls leaves no program
to run. -/
def main : Except StaticError Execution :=
  let cout : List (Insertion Printable) := []
  let cout := print_all (Printable.int 1)
    [.int 2, .int 3, .c_str "hello", .float float_5, .double double_3_14159, .char 'A'] cout
  let cout := cout ++ [Insertion.literal "\n"]
  match make_list_3 ["yes", "", ""] with
  | .error e => .error e
  | .ok lst =>
    let cout := print_all (Printable.std_string lst.one)
      [.std_string lst.two, .std_string lst.three] cout
    let cout := cout ++ [Insertion.literal "\n"]
    match make_point (Arg.prvalue .double double_7_8)
        [Arg.prvalue .float float_9_8, Arg.prvalue .float float_3_141596] with
    | .error e => .error e
    | .ok _ => .ok { cout := cout, outcome := .ok 0 }

/-- The object that `make_point(7.8, 9.8f, 3.141596f)` returns. -/
def point_7_8_9_8f_3_141596f : Point double_type 3 :=
  { m_coordinates := ([double_7_8, float_9_8, float_3_141596] : List FloatingValue)
    size_eq := rfl
    instantiated := rfl }

/-! ## Basic facts about the coordinate array -/

namespace Point

variable {coordinate_T : CppType} {num_dimensions : Int}

theorem element_of_in_range (p : Point coordinate_T num_dimensions) (i : Int)
    (h0 : 0 ≤ i) (h1 : i < num_dimensions) :
    ∃ c, p.m_coordinates[i.toNat]? = some c ∧ p.element i = some c := by
  have hlen : i.toNat < p.m_coordinates.length := by
    have := p.size_eq
    omega
  refine ⟨p.m_coordinates[i.toNat], List.getElem?_eq_getElem hlen, ?_⟩
  simp [element, h0, List.getElem?_eq_getElem hlen]

theorem element_of_out_of_range (p : Point coordinate_T num_dimensions) (i : Int)
    (h : i < 0 ∨ i ≥ num_dimensions) : p.element i = none := by
  unfold element
  split
  · rename_i h0
    have := p.size_eq
    apply List.getElem?_eq_none
    omega
  · rfl

end Point


theorem Point.at_const_eq_error {coordinate_T : CppType} {num_dimensions : Int}
    (p : Point coordinate_T num_dimensions) (coordinate_index : Int) :
    p.at_const coordinate_index = .error .discards_qualifiers := rfl

theorem static_asserts_ok_iff (coordinate_T : CppType) (num_dimensions : Int) :
    Point.static_asserts coordinate_T num_dimensions = .ok () ↔
      num_dimensions ≥ 1 ∧
      (coordinate_T.is_integral = true ∨ coordinate_T.is_floating_point = true) ∧
      coordinate_T.is_const = false ∧ coordinate_T.is_reference = false := by
  unfold Point.static_asserts
  constructor
  · intro h
    split at h
    · cases h
    · split at h
      · cases h
      · split at h
        · cases h
        · split at h
          · cases h
          · rename_i h1 h2 h3 h4
            simp only [Bool.or_eq_true, Bool.not_eq_true', Decidable.not_not,
              Bool.not_eq_false] at h1 h2 h3 h4
            exact ⟨h1, h2, by simpa using h3, by simpa using h4⟩
  · rintro ⟨h1, h2, h3, h4⟩
    have h2' : (coordinate_T.is_integral || coordinate_T.is_floating_point) = true := by
      rcases h2 with h | h <;> simp [h]
    simp [h1, h2', h3, h4]

theorem list_init_convert_same (b : Fundamental) (v : b.val) :
    list_init_convert b b v = .ok v := by
  cases b <;> rfl

/-! ## Facts about construction and printing -/

theorem ctor_ok_iff (coordinate_T : CppType) (num_dimensions : Int) (coordinates : List Arg)
    (p : Point coordinate_T num_dimensions) :
    Point.ctor coordinate_T num_dimensions coordinates = .ok p ↔
      std_array_init coordinate_T num_dimensions coordinates = .ok p.m_coordinates ∧
      (coordinates.length : Int) = num_dimensions := by
  unfold Point.ctor
  split
  · rename_i e he
    have := p.instantiated
    rw [this] at he
    cases he
  · split
    · rename_i e he
      simp [he]
    · rename_i vs hvs
      split
      · rename_i hlen
        simp [hvs, hlen]
        constructor
        · intro h; rw [← h]
        · intro h; cases p; simp at h; subst h; rfl
      · rename_i hlen
        simp [hlen]


theorem init_elements_of_element (coordinate_T : CppType) :
    ∀ pack : List (Bool × Bool × coordinate_T.val),
      init_elements coordinate_T.base (pack.map (Arg.of_element coordinate_T)) =
        .ok (pack.map (fun q => q.2.2))
  | [] => rfl
  | q :: rest => by
    simp only [List.map_cons, init_elements, Arg.of_element, list_init_convert_same]
    have ih := init_elements_of_element coordinate_T rest
    simp only [Arg.of_element] at ih
    rw [ih]

theorem init_elements_getElem (dst : Fundamental) :
    ∀ (coordinates : List Arg) (vs : List dst.val),
      init_elements dst coordinates = .ok vs →
      ∀ (i : Nat) (a : Arg), coordinates[i]? = some a →
        ∃ c, list_init_convert a.type dst a.value = .ok c ∧ vs[i]? = some c
  | [], _, _, i, a, ha => by simp at ha
  | b :: rest, vs, h, i, a, ha => by
    simp only [init_elements] at h
    split at h
    · cases h
    · rename_i v hv
      split at h
      · cases h
      · rename_i ws hws
        simp only [Except.ok.injEq] at h
        subst h
        cases i with
        | zero =>
          simp only [List.getElem?_cons_zero, Option.some.injEq] at ha
          subst ha
          exact ⟨v, hv, by simp⟩
        | succ n =>
          simp only [List.getElem?_cons_succ] at ha
          simpa using init_elements_getElem dst rest ws hws n a ha

theorem std_array_init_exact (coordinate_T : CppType) (num_dimensions : Int)
    (coordinates : List Arg) (values : List coordinate_T.val)
    (h : std_array_init coordinate_T num_dimensions coordinates = .ok values)
    (hlen : (coordinates.length : Int) = num_dimensions) :
    init_elements coordinate_T.base coordinates = .ok values := by
  unfold std_array_init at h
  split at h
  · cases h
  · split at h
    · cases h
    · rename_i vs hvs
      simp only [Except.ok.injEq] at h
      have hl := init_elements_length coordinate_T.base coordinates vs hvs
      have hz : num_dimensions.toNat - vs.length = 0 := by omega
      rw [hz, List.replicate_zero, List.append_nil] at h
      rw [hvs, h]

theorem clean_first_typename_eq (first_arg : Arg) :
    clean_first_typename first_arg =
      { base := first_arg.type, const_qualified := false, ref := RefKind.none } := by
  simp [clean_first_typename, remove_const, remove_reference, Arg.decltype,
    CppType.is_reference]

theorem print_all_impl_eq {Elem : Type} :
    ∀ (template_parameter_pack : List Elem) (num_elems : Int) (elem : Elem)
      (cout : List (Insertion Elem)),
      (template_parameter_pack.length : Int) ≤ num_elems →
      print_all_impl num_elems (elem :: template_parameter_pack) cout =
        cout ++ (if num_elems = template_parameter_pack.length
                  then [Insertion.literal "\x7b "] else []) ++
          List.intersperse (Insertion.literal ", ")
            ((elem :: template_parameter_pack).map Insertion.element) ++
          [Insertion.literal " \x7d"]
  | [], num_elems, elem, cout, _ => by
    by_cases h : num_elems = 0 <;> simp [print_all_impl, h]
  | next :: rest, num_elems, elem, cout, hle => by
    have hle' : (rest.length : Int) ≤ num_elems := by
      simp only [List.length_cons, Nat.cast_add, Nat.cast_one] at hle; omega
    have hne : ¬ num_elems = (rest.length : Int) := by
      simp only [List.length_cons, Nat.cast_add, Nat.cast_one] at hle; omega
    have hpos : ¬ (((next :: rest).length : Nat) : Int) = 0 := by
      simp only [List.length_cons, Nat.cast_add, Nat.cast_one]; omega
    rw [print_all_impl]
    simp only [hpos, if_false]
    rw [print_all_impl_eq rest num_elems next _ hle']
    simp only [hne, if_false, List.append_nil, List.map_cons, List.intersperse,
      List.append_assoc, List.cons_append, List.nil_append, List.singleton_append]
    by_cases h : num_elems = (((next :: rest).length : Nat) : Int)
    · rw [if_pos h, if_pos h]; simp
    · rw [if_neg h, if_neg h]; simp

theorem intercalate_go_data (s : String) :
    ∀ (l : List String) (acc : String),
      (String.intercalate.go acc s l).data =
        acc.data ++ (l.map (fun a => s.data ++ a.data)).flatten
  | [], acc => by simp [String.intercalate.go]
  | a :: rest, acc => by
    simp [String.intercalate.go, intercalate_go_data s rest, List.append_assoc]

theorem written_intersperse_data {Elem : Type} (format : Elem → String) (s : String) :
    ∀ (elem : Elem) (rest : List Elem),
      (written format
        (List.intersperse (Insertion.literal s) ((elem :: rest).map Insertion.element))).data =
        (format elem).data ++ (rest.map (fun a => s.data ++ (format a).data)).flatten
  | elem, [] => by simp [written, List.intersperse, Insertion.text]
  | elem, next :: rest => by
    have ih := written_intersperse_data format s next rest
    simp only [written, String.data_join, List.map_map] at ih
    simp only [written, List.map_cons, List.intersperse, String.data_join, List.map_map,
      List.flatten_cons, Function.comp_apply, Insertion.text]
    simp only [List.map_cons] at ih
    rw [ih]
    simp [List.append_assoc]

theorem countP_intersperse_literal {Elem : Type} (s t : String) :
    ∀ (elem : Elem) (rest : List Elem),
      List.countP (Insertion.is_literal t)
        (List.intersperse (Insertion.literal s) ((elem :: rest).map Insertion.element)) =
        if s = t then rest.length else 0
  | elem, [] => by simp [List.intersperse, Insertion.is_literal]
  | elem, next :: rest => by
    have ih := countP_intersperse_literal s t next rest
    simp only [List.map_cons] at ih
    simp only [List.map_cons, List.intersperse, List.countP_cons, ih, Insertion.is_literal,
      List.length_cons]
    by_cases h : s = t <;> simp [h]

theorem countP_intersperse_element {Elem : Type} (s : String) :
    ∀ (elem : Elem) (rest : List Elem),
      List.countP Insertion.is_element
        (List.intersperse (Insertion.literal s) ((elem :: rest).map Insertion.element)) =
        rest.length + 1
  | elem, [] => by simp [List.intersperse, Insertion.is_element]
  | elem, next :: rest => by
    have ih := countP_intersperse_element s next rest
    simp only [List.map_cons] at ih
    simp [List.intersperse, List.countP_cons, ih, Insertion.is_element]

theorem ctor_error_of_init_error (coordinate_T : CppType) (num_dimensions : Int)
    (coordinates : List Arg) (e : StaticError)
    (hT : Point.static_asserts coordinate_T num_dimensions = .ok ())
    (hi : std_array_init coordinate_T num_dimensions coordinates = .error e) :
    Point.ctor coordinate_T num_dimensions coordinates = .error e := by
  unfold Point.ctor
  split
  · rename_i e' he
    rw [hT] at he
    cases he
  · split
    · rename_i e' he
      rw [hi] at he
      cases he
      rfl
    · rename_i vs hvs
      rw [hi] at hvs
      cases hvs

theorem ctor_error_of_wrong_count (coordinate_T : CppType) (num_dimensions : Int)
    (coordinates : List Arg) (values : List coordinate_T.val)
    (hT : Point.static_asserts coordinate_T num_dimensions = .ok ())
    (hi : std_array_init coordinate_T num_dimensions coordinates = .ok values)
    (hlen : ¬ (coordinates.length : Int) = num_dimensions) :
    Point.ctor coordinate_T num_dimensions coordinates =
      .error (.static_assert "Wrong number of initializer list values for Point") := by
  unfold Point.ctor
  split
  · rename_i e' he
    rw [hT] at he
    cases he
  · split
    · rename_i e' he
      rw [hi] at he
      cases he
    · simp [hlen]

theorem ctor_ok_of_init_ok (coordinate_T : CppType) (num_dimensions : Int)
    (coordinates : List Arg) (values : List coordinate_T.val)
    (hT : Point.static_asserts coordinate_T num_dimensions = .ok ())
    (hi : std_array_init coordinate_T num_dimensions coordinates = .ok values)
    (hlen : (coordinates.length : Int) = num_dimensions) :
    ∃ p : Point coordinate_T num_dimensions,
      Point.ctor coordinate_T num_dimensions coordinates = .ok p ∧ p.m_coordinates = values := by
  refine ⟨{ m_coordinates := values
            size_eq := std_array_init_length coordinate_T num_dimensions coordinates values hi
            instantiated := hT }, ?_, rfl⟩
  rw [ctor_ok_iff]
  exact ⟨hi, hlen⟩

theorem init_elements_ok_iff (dst : Fundamental) :
    ∀ coordinates : List Arg,
      (∃ vs, init_elements dst coordinates = .ok vs) ↔
        ∀ a ∈ coordinates, ∃ c, list_init_convert a.type dst a.value = .ok c
  | [] => by simp [init_elements]
  | b :: rest => by
    have ih := init_elements_ok_iff dst rest
    constructor
    · rintro ⟨vs, h⟩
      simp only [init_elements] at h
      split at h
      · cases h
      · rename_i v hv
        split at h
        · cases h
        · rename_i ws hws
          intro a ha
          rcases List.mem_cons.1 ha with rfl | ha'
          · exact ⟨v, hv⟩
          · exact (ih.1 ⟨ws, hws⟩) a ha'
    · intro h
      obtain ⟨v, hv⟩ := h b (List.mem_cons_self _ _)
      obtain ⟨ws, hws⟩ := ih.2 (fun a ha => h a (List.mem_cons_of_mem _ ha))
      exact ⟨v :: ws, by simp only [init_elements, hv, hws]⟩

theorem make_point_ok_iff_init (first_arg : Arg) (args : List Arg)
    (p : Point (clean_first_typename first_arg) ((args.length : Int) + 1)) :
    make_point first_arg args = .ok p ↔
      init_elements (clean_first_typename first_arg).base (first_arg :: args) =
        .ok p.m_coordinates := by
  have hk : (((({ first_arg with is_lvalue := true } : Arg) :: args).length : Nat) : Int) =
      (args.length : Int) + 1 := by
    simp only [List.length_cons, Nat.cast_add, Nat.cast_one]
  unfold make_point
  rw [ctor_ok_iff]
  constructor
  · rintro ⟨h1, h2⟩
    have := std_array_init_exact _ _ _ _ h1 h2
    simpa only [init_elements] using this
  · intro h
    refine ⟨?_, hk⟩
    have h' : init_elements (clean_first_typename first_arg).base
        (({ first_arg with is_lvalue := true } : Arg) :: args) = .ok p.m_coordinates := by
      simpa only [init_elements] using h
    have hl := init_elements_length _ _ _ h'
    unfold std_array_init
    have hgt : ¬ ((((({ first_arg with is_lvalue := true } : Arg) :: args).length : Nat) : Int) >
        (args.length : Int) + 1) := by
      rw [hk]; omega
    rw [if_neg hgt, h']
    have hz : ((args.length : Int) + 1).toNat - p.m_coordinates.length = 0 := by
      rw [hl]; simp only [List.length_cons]; omega
    simp only [hz, List.replicate_zero, List.append_nil]

/-! ## Claims -/

/-- C1 fails on the code for a read-only or temporary `Point`: there the call `at(i)`
selects the overload `at(const int) const&`, which is rejected at compile time for every
index, so no coordinate is returned. On a mutable `Point` of dimension `N ≥ 1` the
overload `at(const int) &` does what the claim says: for `0 ≤ i < N` it returns normally
(no `PointCoordIndexOutOfRangeError`), and the reference it returns designates the
coordinate stored at position `i`. -/
theorem at_in_range_returns_coordinate {coordinate_T : CppType} {num_dimensions : Int}
    (p : Point coordinate_T num_dimensions) (i : Int) (h0 : 0 ≤ i) (h1 : i < num_dimensions) :
    num_dimensions ≥ 1 ∧
    (∃ c, p.m_coordinates[i.toNat]? = some c ∧
      (p.at_ i).result = .ok { position := i } ∧
      p.load { position := i } = some c) ∧
    p.at_const i = .error .discards_qualifiers ∧
    ∀ call : Call coordinate_T num_dimensions, p.at_const i ≠ .ok call := by
  obtain ⟨c, hc, he⟩ := p.element_of_in_range i h0 h1
  refine ⟨by omega, ⟨c, hc, ?_, he⟩, rfl, ?_⟩
  · have : ¬ (i < 0 ∨ i ≥ num_dimensions) := by omega
    simp [Point.at_, this]
  · intro call hcall
    rw [Point.at_const_eq_error] at hcall
    cases hcall

/-- Witness of C1 on `Point<int, 3>{ 1, 2, 3 }` at index 1: the `&` overload reads 2, the
`const&` overload is rejected. -/
theorem at_in_range_returns_coordinate_witness :
    (0 : Int) ≤ 1 ∧ (1 : Int) < 3 ∧
    (point_1_2_3.at_ 1).result = .ok { position := 1 } ∧
    point_1_2_3.load { position := 1 } = some (2 : Int) ∧
    point_1_2_3.at_const 1 = .error .discards_qualifiers := by
  obtain ⟨_, ⟨_, _, hat, _⟩, hconst, _⟩ :=
    at_in_range_returns_coordinate point_1_2_3 1 (by decide) (by decide)
  exact ⟨by decide, by decide, hat, rfl, hconst⟩

/-- C2 fails on the code for a read-only or temporary `Point`: there the call `at(i)`
selects the overload `at(const int) const&`, which is rejected at compile time and so
never throws. On a mutable `Point` of dimension `N` the overload `at(const int) &` does
what the claim says: for `i < 0` or `i ≥ N` it throws `PointCoordIndexOutOfRangeError`,
and the receiver leaves the call with every coordinate as it was. -/
theorem at_out_of_range_throws {coordinate_T : CppType} {num_dimensions : Int}
    (p : Point coordinate_T num_dimensions) (i : Int) (h : i < 0 ∨ i ≥ num_dimensions) :
    (p.at_ i).result = .error PointCoordIndexOutOfRangeError.ctor ∧
    (p.at_ i).receiver.m_coordinates = p.m_coordinates ∧
    (∀ j : Int, (p.at_ i).receiver.element j = p.element j) ∧
    p.at_const i = .error .discards_qualifiers ∧
    ∀ call : Call coordinate_T num_dimensions, p.at_const i ≠ .ok call := by
  have e1 : p.at_ i = { result := .error PointCoordIndexOutOfRangeError.ctor, receiver := p } := by
    simp [Point.at_, h]
  rw [e1]
  refine ⟨rfl, rfl, fun _ => rfl, rfl, ?_⟩
  intro call hcall
  rw [Point.at_const_eq_error] at hcall
  cases hcall

/-- Witness of C2: `Point<int, 3> p{ 1, 2, 3 }; p.at(5)` throws on the mutable `p`, and is
rejected on a read-only one. -/
theorem at_out_of_range_throws_witness :
    ((5 : Int) < 0 ∨ (5 : Int) ≥ 3) ∧
    (point_1_2_3.at_ 5).result = .error PointCoordIndexOutOfRangeError.ctor ∧
    (point_1_2_3.at_ 5).receiver.m_coordinates = point_1_2_3.m_coordinates ∧
    (∀ j : Int, (point_1_2_3.at_ 5).receiver.element j = point_1_2_3.element j) ∧
    point_1_2_3.at_const 5 = .error .discards_qualifiers ∧
    ∀ call : Call int_type 3, point_1_2_3.at_const 5 ≠ .ok call :=
  ⟨by decide, at_out_of_range_throws point_1_2_3 5 (by decide)⟩

/-- C3: in an instantiation `Point<T, N>` that passes the class assertions (so `N ≥ 1`
and `T` is a number type), construction from exactly `N` values of type `T` is accepted,
and the coordinate at every position `i` in `[0, N)` is the `i`-th value supplied. -/
theorem ctor_stores_values (coordinate_T : CppType) (num_dimensions : Int)
    (pack : List (Bool × Bool × coordinate_T.val))
    (hT : Point.static_asserts coordinate_T num_dimensions = .ok ())
    (hlen : (pack.length : Int) = num_dimensions) :
    num_dimensions ≥ 1 ∧
    ∃ p : Point coordinate_T num_dimensions,
      Point.ctor coordinate_T num_dimensions (pack.map (Arg.of_element coordinate_T)) = .ok p ∧
      p.m_coordinates = pack.map (fun q => q.2.2) ∧
      ∀ i : Int, 0 ≤ i → i < num_dimensions →
        ∃ q, pack[i.toNat]? = some q ∧
          p.at_idx i = .ok { position := i } ∧
          p.at_idx_const i = .ok { position := i } ∧
          p.load { position := i } = some q.2.2 ∧
          p.load_const { position := i } = some q.2.2 := by
  have hN : num_dimensions ≥ 1 := ((static_asserts_ok_iff _ _).1 hT).1
  have hsz : (((pack.map (fun q => q.2.2)).length : Nat) : Int) = num_dimensions := by
    simpa using hlen
  let p : Point coordinate_T num_dimensions :=
    { m_coordinates := pack.map (fun q => q.2.2), size_eq := hsz, instantiated := hT }
  refine ⟨hN, p, ?_, rfl, ?_⟩
  · rw [ctor_ok_iff]
    refine ⟨?_, by simpa using hlen⟩
    unfold std_array_init
    have hgt : ¬ (((pack.map (Arg.of_element coordinate_T)).length : Int) > num_dimensions) := by
      simp only [List.length_map]; omega
    rw [if_neg hgt, init_elements_of_element]
    have hz : num_dimensions.toNat - (pack.map (fun q => q.2.2)).length = 0 := by
      simp only [List.length_map]; omega
    simp only [hz, List.replicate_zero, List.append_nil]
  · intro i h0 h1
    have hi : i.toNat < pack.length := by omega
    refine ⟨pack[i.toNat], List.getElem?_eq_getElem hi, ?_, ?_, ?_, ?_⟩
    · simp [Point.at_idx, h0, h1]
    · simp [Point.at_idx_const, h0, h1]
    · simp [Point.load, Point.element, h0, p, List.getElem?_eq_getElem hi]
    · simp [Point.load_const, Point.element, h0, p, List.getElem?_eq_getElem hi]

/-- Witness of C3: `Point<int, 3>{ 1, 2, 3 }`, whose `at<0>()` is 1 and `at<2>()` is 3. -/
theorem ctor_stores_values_witness :
    Point.static_asserts int_type 3 = .ok () ∧
    ∃ p : Point int_type 3,
      Point.ctor int_type 3
        [Arg.prvalue .int (1 : Int), Arg.prvalue .int (2 : Int), Arg.prvalue .int (3 : Int)]
        = .ok p ∧
      p.m_coordinates = [(1 : Int), 2, 3] ∧
      p.at_idx 0 = .ok { position := 0 } ∧ p.load { position := 0 } = some (1 : Int) ∧
      p.at_idx 2 = .ok { position := 2 } ∧ p.load { position := 2 } = some (3 : Int) := by
  obtain ⟨_, p, hp, hm, hall⟩ :=
    ctor_stores_values int_type 3
      [(false, false, (1 : Int)), (false, false, (2 : Int)), (false, false, (3 : Int))]
      rfl rfl
  refine ⟨rfl, p, hp, hm, ?_⟩
  obtain ⟨q0, hq0, ha0, _, hl0, _⟩ := hall 0 (by decide) (by decide)
  obtain ⟨q2, hq2, ha2, _, hl2, _⟩ := hall 2 (by decide) (by decide)
  simp at hq0 hq2
  subst hq0 hq2
  exact ⟨ha0, hl0, ha2, hl2⟩

/-- C4, as stated, fails: the zero-argument constructor `Point() = default` run on
storage that holds 1, 2, 3 (the form `new Point`) leaves a `Point<int, 3>` whose
coordinates are not all zero. -/
theorem default_init_keeps_storage_counterexample :
    ¬ (∀ j : Int, 0 ≤ j → j < 3 →
        (Point.default_init point_1_2_3).element j = some int_type.base.zero) := by
  intro h
  have h0 := h 0 (by decide) (by decide)
  revert h0
  decide

/-- C4, amended: in every instantiation `Point<T, N>` (so `N ≥ 1` and `T` a number type),
value-initialisation (`Point{}` / `new Point{}`) yields `N` coordinates, each equal to the
zero of `T`, whatever the storage held; the zero-argument constructor alone
(`Point p;` / `new Point`) leaves the coordinates as the storage held them. -/
theorem value_init_all_zero {coordinate_T : CppType} {num_dimensions : Int}
    (storage : Point coordinate_T num_dimensions) (j : Int)
    (h0 : 0 ≤ j) (h1 : j < num_dimensions) :
    num_dimensions ≥ 1 ∧
    (coordinate_T.is_integral = true ∨ coordinate_T.is_floating_point = true) ∧
    ((Point.value_init storage).m_coordinates.length : Int) = num_dimensions ∧
    (Point.value_init storage).element j = some coordinate_T.base.zero ∧
    (Point.value_init storage).at_idx j = .ok { position := j } ∧
    (Point.value_init storage).load { position := j } = some coordinate_T.base.zero ∧
    (Point.default_init storage).element j = storage.element j := by
  have hs := (static_asserts_ok_iff _ _).1 storage.instantiated
  have hj : j.toNat < num_dimensions.toNat := by omega
  have he : (Point.value_init storage).element j = some coordinate_T.base.zero := by
    simp [Point.value_init, Point.ctor_default, Point.zero_init, Point.element, h0,
      List.getElem?_replicate, hj]
  refine ⟨hs.1, hs.2.1, (Point.value_init storage).size_eq, he, ?_, he, rfl⟩
  simp [Point.at_idx, h0, h1]

/-- Witness of C4: `Point<int, 3>{}` built on storage that held 1, 2, 3 has 0 at
position 1. -/
theorem value_init_all_zero_witness :
    (0 : Int) ≤ 1 ∧ (1 : Int) < 3 ∧
    ((3 : Int) ≥ 1 ∧
    (int_type.is_integral = true ∨ int_type.is_floating_point = true) ∧
    ((Point.value_init point_1_2_3).m_coordinates.length : Int) = 3 ∧
    (Point.value_init point_1_2_3).element 1 = some int_type.base.zero ∧
    (Point.value_init point_1_2_3).at_idx 1 = .ok { position := 1 } ∧
    (Point.value_init point_1_2_3).load { position := 1 } = some int_type.base.zero ∧
    (Point.default_init point_1_2_3).element 1 = point_1_2_3.element 1) :=
  ⟨by decide, by decide, value_init_all_zero point_1_2_3 1 (by decide) (by decide)⟩

/-- C5: for a `Point` of dimension `N` and a compile-time index `k` with `0 ≤ k < N`,
both overloads of `at<k>()` are accepted and return a reference to the coordinate stored
at position `k`; and for each axis name whose position is below `N`, both overloads of
the named accessor are the indexed accessor at the mapped position:
`at<x>()` is `at<0>()`, `at<y>()` is `at<1>()`, `at<z>()` is `at<2>()`. -/
theorem at_idx_returns_coordinate {coordinate_T : CppType} {num_dimensions : Int}
    (p : Point coordinate_T num_dimensions) (k : Int) (h0 : 0 ≤ k) (h1 : k < num_dimensions) :
    (∃ c, p.m_coordinates[k.toNat]? = some c ∧
      p.at_idx k = .ok { position := k } ∧
      p.at_idx_const k = .ok { position := k } ∧
      p.load { position := k } = some c ∧
      p.load_const { position := k } = some c) ∧
    (0 < num_dimensions →
      p.at_coord coords_e.x = p.at_idx 0 ∧ p.at_coord_const coords_e.x = p.at_idx_const 0 ∧
      p.at_coord coords_e.x = .ok { position := 0 } ∧
      p.at_coord_const coords_e.x = .ok { position := 0 }) ∧
    (1 < num_dimensions →
      p.at_coord coords_e.y = p.at_idx 1 ∧ p.at_coord_const coords_e.y = p.at_idx_const 1 ∧
      p.at_coord coords_e.y = .ok { position := 1 } ∧
      p.at_coord_const coords_e.y = .ok { position := 1 }) ∧
    (2 < num_dimensions →
      p.at_coord coords_e.z = p.at_idx 2 ∧ p.at_coord_const coords_e.z = p.at_idx_const 2 ∧
      p.at_coord coords_e.z = .ok { position := 2 } ∧
      p.at_coord_const coords_e.z = .ok { position := 2 }) := by
  obtain ⟨c, hc, he⟩ := p.element_of_in_range k h0 h1
  refine ⟨⟨c, hc, ?_, ?_, he, he⟩, ?_, ?_, ?_⟩
  · simp [Point.at_idx, h0, h1]
  · simp [Point.at_idx_const, h0, h1]
  · intro h
    refine ⟨rfl, rfl, ?_, ?_⟩
    · simp [Point.at_coord, Point.at_idx, coords_e.to_int, coords_e.x, h]
    · simp [Point.at_coord_const, Point.at_idx_const, coords_e.to_int, coords_e.x, h]
  · intro h
    refine ⟨rfl, rfl, ?_, ?_⟩
    · simp [Point.at_coord, Point.at_idx, coords_e.to_int, coords_e.y, h]
    · simp [Point.at_coord_const, Point.at_idx_const, coords_e.to_int, coords_e.y, h]
  · intro h
    refine ⟨rfl, rfl, ?_, ?_⟩
    · simp [Point.at_coord, Point.at_idx, coords_e.to_int, coords_e.z, h]
    · simp [Point.at_coord_const, Point.at_idx_const, coords_e.to_int, coords_e.z, h]

/-- Witness of C5 on `Point<int, 3>{ 1, 2, 3 }`: `at<2>()` and `at<z>()` read 3. -/
theorem at_idx_returns_coordinate_witness :
    (0 : Int) ≤ 2 ∧ (2 : Int) < 3 ∧
    point_1_2_3.at_idx 2 = .ok { position := 2 } ∧
    point_1_2_3.at_coord coords_e.z = .ok { position := 2 } ∧
    point_1_2_3.at_coord_const coords_e.x = .ok { position := 0 } ∧
    point_1_2_3.load { position := 2 } = some (3 : Int) := by
  obtain ⟨⟨c, hc, hi, _, hl, _⟩, hx, _, hz⟩ :=
    at_idx_returns_coordinate point_1_2_3 2 (by decide) (by decide)
  have hc3 : c = (3 : Int) := by
    have : point_1_2_3.m_coordinates[(2 : Int).toNat]? = some (3 : Int) := rfl
    rw [this] at hc
    exact (Option.some.inj hc).symm
  subst hc3
  exact ⟨by decide, by decide, hi, (hz (by decide)).2.2.1, (hx (by decide)).2.2.2, hl⟩

/-- C7 fails on the code for a read-only or temporary `Point`: there `operator[](i)`
returns the coordinate while the call `at(i)` selects the overload `at(const int) const&`,
which is rejected at compile time. On a mutable `Point` of dimension `N` the two `&`
overloads do what the claim says: for `0 ≤ i < N`, `operator[](i)` returns the same
reference, hence the same coordinate, as `at(i)`; they differ in validation only:
`operator[]` returns the reference to position `j` for every `j` and has no failure
result, while for `j` outside `[0, N)` `at(j)` throws and the reference from
`operator[](j)` designates no coordinate. -/
theorem subscript_agrees_with_at {coordinate_T : CppType} {num_dimensions : Int}
    (p : Point coordinate_T num_dimensions) (i : Int) (h0 : 0 ≤ i) (h1 : i < num_dimensions) :
    (p.at_ i).result = .ok (p.subscript i) ∧
    (∃ c, p.m_coordinates[i.toNat]? = some c ∧
      p.load (p.subscript i) = some c ∧ p.load_const (p.subscript_const i) = some c) ∧
    (∀ j : Int, (p.subscript j).position = j ∧ (p.subscript_const j).position = j) ∧
    (∀ j : Int, j < 0 ∨ j ≥ num_dimensions →
      (p.at_ j).result = .error PointCoordIndexOutOfRangeError.ctor ∧
      p.load (p.subscript j) = none ∧ p.load_const (p.subscript_const j) = none) ∧
    (∀ j : Int, p.at_const j = .error .discards_qualifiers) := by
  have hn : ¬ (i < 0 ∨ i ≥ num_dimensions) := by omega
  obtain ⟨c, hc, he⟩ := p.element_of_in_range i h0 h1
  refine ⟨by simp [Point.at_, Point.subscript, hn],
    ⟨c, hc, he, he⟩, fun j => ⟨rfl, rfl⟩, ?_, fun _ => rfl⟩
  intro j hj
  have hnone := p.element_of_out_of_range j hj
  exact ⟨by simp [Point.at_, hj], hnone, hnone⟩

/-- Witness of C7 on `Point<int, 3>{ 1, 2, 3 }` at index 2. -/
theorem subscript_agrees_with_at_witness :
    (0 : Int) ≤ 2 ∧ (2 : Int) < 3 ∧
    (point_1_2_3.at_ 2).result = .ok (point_1_2_3.subscript 2) ∧
    point_1_2_3.load (point_1_2_3.subscript 2) = some (3 : Int) ∧
    point_1_2_3.load_const (point_1_2_3.subscript_const 2) = some (3 : Int) ∧
    point_1_2_3.at_const 2 = .error .discards_qualifiers :=
  ⟨by decide, by decide,
    (subscript_agrees_with_at point_1_2_3 2 (by decide) (by decide)).1, by decide, by decide,
    rfl⟩

/-- C8: when `make_point(a_0, ..., a_{k-1})` is accepted, the result is a `Point` whose
dimension is the argument count `k = 1 + sizeof...(args)`, whose element type is the type
of the first argument with reference and const removed (a non-const, non-reference number
type), and whose coordinate at every position `i` in `[0, k)` is `a_i` converted to that
element type. -/
theorem make_point_result (first_arg : Arg) (args : List Arg)
    (p : Point (clean_first_typename first_arg) ((args.length : Int) + 1))
    (h : make_point first_arg args = .ok p) :
    (p.m_coordinates.length : Int) = ((first_arg :: args).length : Nat) ∧
    (args.length : Int) + 1 = ((first_arg :: args).length : Nat) ∧
    clean_first_typename first_arg =
      { base := first_arg.type, const_qualified := false, ref := RefKind.none } ∧
    (clean_first_typename first_arg).is_const = false ∧
    (clean_first_typename first_arg).is_reference = false ∧
    ((clean_first_typename first_arg).is_integral = true ∨
      (clean_first_typename first_arg).is_floating_point = true) ∧
    ∀ i : Int, 0 ≤ i → i < ((first_arg :: args).length : Nat) →
      ∃ (a : Arg) (c : (clean_first_typename first_arg).val),
        (first_arg :: args)[i.toNat]? = some a ∧
        list_init_convert a.type (clean_first_typename first_arg).base a.value = .ok c ∧
        p.at_idx i = .ok { position := i } ∧
        p.load { position := i } = some c := by
  have hs := (static_asserts_ok_iff _ _).1 p.instantiated
  have hk : (args.length : Int) + 1 = ((first_arg :: args).length : Nat) := by
    simp only [List.length_cons, Nat.cast_add, Nat.cast_one]
  refine ⟨by rw [p.size_eq, hk], hk, clean_first_typename_eq first_arg, hs.2.2.1, hs.2.2.2,
    hs.2.1, ?_⟩
  intro i h0 h1
  unfold make_point at h
  rw [ctor_ok_iff] at h
  have hinit := std_array_init_exact _ _ _ _ h.1 h.2
  have hinit' : init_elements (clean_first_typename first_arg).base (first_arg :: args) =
      .ok p.m_coordinates := by
    simpa only [init_elements] using hinit
  have hi : i.toNat < (first_arg :: args).length := by omega
  obtain ⟨c, hc, hv⟩ := init_elements_getElem _ _ _ hinit' i.toNat
    (first_arg :: args)[i.toNat] (List.getElem?_eq_getElem hi)
  refine ⟨(first_arg :: args)[i.toNat], c, List.getElem?_eq_getElem hi, hc, ?_, ?_⟩
  · have : i < (args.length : Int) + 1 := by rw [hk]; exact h1
    simp [Point.at_idx, h0, this]
  · simp [Point.load, Point.element, h0, hv]

/-- Witness of C8: `make_point(7.8, 9.8, 3.14)` is a `Point<double, 3>` that holds
7.8, 9.8, 3.14 in order. -/
theorem make_point_result_witness :
    make_point (Arg.prvalue .double double_7_8)
      [Arg.prvalue .double double_9_8, Arg.prvalue .double double_3_14]
      = .ok point_7_8_9_8_3_14 ∧
    clean_first_typename (Arg.prvalue .double double_7_8) = double_type ∧
    (point_7_8_9_8_3_14.m_coordinates.length : Int) = 3 ∧
    point_7_8_9_8_3_14.m_coordinates = [double_7_8, double_9_8, double_3_14] ∧
    point_7_8_9_8_3_14.load { position := 0 } = some double_7_8 ∧
    point_7_8_9_8_3_14.load { position := 1 } = some double_9_8 ∧
    point_7_8_9_8_3_14.load { position := 2 } = some double_3_14 :=
  ⟨rfl,
    (make_point_result (Arg.prvalue .double double_7_8)
      [Arg.prvalue .double double_9_8, Arg.prvalue .double double_3_14]
      point_7_8_9_8_3_14 rfl).2.2.1,
    rfl, rfl, rfl, rfl, rfl⟩

/-- C9: for a pack of `k ≥ 1` values, `print_all` appends to the stream the insertion of
`"{ "`, then the values in argument order with one insertion of `", "` between
consecutive values, then the insertion of `" }"`; the characters written are `"{ "`,
the renderings joined by `", "`, and `" }"`; `"{ "` is inserted once, first, `", "`
is inserted `k - 1` times, `" }"` once, last, and each value once, whatever the element
type and its formatting. -/
theorem print_all_output {Elem : Type} (format : Elem → String) (elem : Elem)
    (template_parameter_pack : List Elem) (cout : List (Insertion Elem)) :
    print_all elem template_parameter_pack cout =
      cout ++ [Insertion.literal "\x7b "] ++
        List.intersperse (Insertion.literal ", ")
          ((elem :: template_parameter_pack).map Insertion.element) ++
        [Insertion.literal " \x7d"] ∧
    written format (print_all elem template_parameter_pack []) =
      "\x7b " ++ ", ".intercalate ((elem :: template_parameter_pack).map format) ++ " \x7d" ∧
    List.countP (Insertion.is_literal "\x7b ") (print_all elem template_parameter_pack []) = 1 ∧
    List.countP (Insertion.is_literal ", ") (print_all elem template_parameter_pack []) =
      (elem :: template_parameter_pack).length - 1 ∧
    List.countP (Insertion.is_literal " \x7d") (print_all elem template_parameter_pack []) = 1 ∧
    List.countP Insertion.is_element (print_all elem template_parameter_pack []) =
      (elem :: template_parameter_pack).length ∧
    (print_all elem template_parameter_pack []).head? = some (Insertion.literal "\x7b ") ∧
    (print_all elem template_parameter_pack []).getLast? = some (Insertion.literal " \x7d") := by
  have hform : ∀ cout : List (Insertion Elem),
      print_all elem template_parameter_pack cout =
        cout ++ [Insertion.literal "\x7b "] ++
          List.intersperse (Insertion.literal ", ")
            ((elem :: template_parameter_pack).map Insertion.element) ++
          [Insertion.literal " \x7d"] := by
    intro cout
    unfold print_all
    rw [print_all_impl_eq template_parameter_pack _ elem cout (le_refl _)]
    simp
  refine ⟨hform cout, ?_, ?_, ?_, ?_, ?_, ?_, ?_⟩
  · apply String.ext
    rw [hform []]
    have hw := written_intersperse_data format ", " elem template_parameter_pack
    simp only [written, String.data_join, List.map_map] at hw
    simp only [written, String.data_join, List.map_append, List.flatten_append,
      List.nil_append, List.map_cons, List.map_nil, List.flatten_cons, List.flatten_nil,
      List.append_nil, Insertion.text, String.data_append, String.intercalate,
      intercalate_go_data, List.map_map, List.append_assoc, List.cons_append]
    simp only [List.map_cons, List.map_map] at hw
    rw [hw]
    simp [List.append_assoc, Function.comp_def]
  · rw [hform [], List.countP_append, List.countP_append, countP_intersperse_literal]
    simp [Insertion.is_literal]
  · rw [hform [], List.countP_append, List.countP_append, countP_intersperse_literal]
    simp [Insertion.is_literal]
  · rw [hform [], List.countP_append, List.countP_append, countP_intersperse_literal]
    simp [Insertion.is_literal]
  · rw [hform [], List.countP_append, List.countP_append, countP_intersperse_element]
    simp [Insertion.is_element]
  · rw [hform []]
    rfl
  · rw [hform [], List.getLast?_concat]

/-- C10: every exception that either overload of the checked accessor throws has the
same `what()`, the text "Point coordinate index is out of range", whatever the index and
the dimension; the base class was given the empty message, and `what()` does not depend
on the base message. -/
theorem thrown_error_message {coordinate_T : CppType} {num_dimensions : Int}
    (p : Point coordinate_T num_dimensions) (i : Int) (e : PointCoordIndexOutOfRangeError)
    (h : (p.at_ i).result = .error e ∨
      ∃ call : Call coordinate_T num_dimensions,
        p.at_const i = .ok call ∧ call.result = .error e) :
    e.what = "Point coordinate index is out of range" ∧
    e.base.what = "" ∧
    (i < 0 ∨ i ≥ num_dimensions) ∧
    ∀ other : PointCoordIndexOutOfRangeError, other.what = e.what := by
  have key : e = PointCoordIndexOutOfRangeError.ctor ∧ (i < 0 ∨ i ≥ num_dimensions) := by
    rcases h with h | h
    · unfold Point.at_ at h
      split at h
      · rename_i hi
        simp only [Except.error.injEq] at h
        exact ⟨h.symm, hi⟩
      · simp at h
    · obtain ⟨call, hcall, _⟩ := h
      rw [Point.at_const_eq_error] at hcall
      cases hcall
  obtain ⟨he, hi⟩ := key
  subst he
  exact ⟨rfl, rfl, hi, fun _ => rfl⟩

/-- Witness of C10: the exception thrown by `Point<int, 3>{ 1, 2, 3 }.at(5)`. -/
theorem thrown_error_message_witness :
    (point_1_2_3.at_ 5).result = .error PointCoordIndexOutOfRangeError.ctor ∧
    PointCoordIndexOutOfRangeError.ctor.what = "Point coordinate index is out of range" ∧
    PointCoordIndexOutOfRangeError.ctor.base.what = "" :=
  have h : (point_1_2_3.at_ 5).result = .error PointCoordIndexOutOfRangeError.ctor := rfl
  have t := thrown_error_message point_1_2_3 5 PointCoordIndexOutOfRangeError.ctor (Or.inl h)
  ⟨h, t.1, t.2.1⟩


/-- C11: in an instantiation `Point<T, N>` that passes the class assertions (so `N ≥ 1`),
construction from `k ≥ 1` values of type `T` is accepted if and only if `k = N`. For
`k ≠ N` the constructor is rejected at compile time: for `k < N` by the assertion of the
constructor body, for `k > N` already by the initialiser of the array, which has too many
clauses. An accepted construction holds exactly the `k = N` values supplied, so no `Point`
is partially filled or truncated. -/
theorem ctor_arity (coordinate_T : CppType) (num_dimensions : Int)
    (pack : List (Bool × Bool × coordinate_T.val))
    (hT : Point.static_asserts coordinate_T num_dimensions = .ok ())
    (hk : 1 ≤ pack.length) :
    num_dimensions ≥ 1 ∧
    ((∃ p : Point coordinate_T num_dimensions,
        Point.ctor coordinate_T num_dimensions (pack.map (Arg.of_element coordinate_T)) = .ok p)
      ↔ (pack.length : Int) = num_dimensions) ∧
    ((pack.length : Int) ≠ num_dimensions →
      ∃ e, Point.ctor coordinate_T num_dimensions (pack.map (Arg.of_element coordinate_T)) =
        .error e) ∧
    ((pack.length : Int) < num_dimensions →
      Point.ctor coordinate_T num_dimensions (pack.map (Arg.of_element coordinate_T)) =
        .error (.static_assert "Wrong number of initializer list values for Point")) ∧
    ((pack.length : Int) > num_dimensions →
      Point.ctor coordinate_T num_dimensions (pack.map (Arg.of_element coordinate_T)) =
        .error .too_many_initializers) ∧
    (∀ p : Point coordinate_T num_dimensions,
      Point.ctor coordinate_T num_dimensions (pack.map (Arg.of_element coordinate_T)) = .ok p →
        p.m_coordinates = pack.map (fun q => q.2.2) ∧
        (p.m_coordinates.length : Int) = num_dimensions ∧
        p.m_coordinates.length = pack.length) := by
  have hN : num_dimensions ≥ 1 := ((static_asserts_ok_iff _ _).1 hT).1
  have hmaplen : (pack.map (Arg.of_element coordinate_T)).length = pack.length :=
    List.length_map _ _
  have hlt : (pack.length : Int) < num_dimensions →
      Point.ctor coordinate_T num_dimensions (pack.map (Arg.of_element coordinate_T)) =
        .error (.static_assert "Wrong number of initializer list values for Point") := by
    intro h
    have hinit : std_array_init coordinate_T num_dimensions
        (pack.map (Arg.of_element coordinate_T)) =
        .ok (pack.map (fun q => q.2.2) ++
          List.replicate (num_dimensions.toNat - (pack.map (fun q => q.2.2)).length)
            coordinate_T.base.zero) := by
      unfold std_array_init
      have hgt : ¬ (((pack.map (Arg.of_element coordinate_T)).length : Int) >
          num_dimensions) := by
        rw [hmaplen]; omega
      rw [if_neg hgt, init_elements_of_element]
    exact ctor_error_of_wrong_count _ _ _ _ hT hinit (by rw [hmaplen]; omega)
  have hgt : (pack.length : Int) > num_dimensions →
      Point.ctor coordinate_T num_dimensions (pack.map (Arg.of_element coordinate_T)) =
        .error .too_many_initializers := by
    intro h
    apply ctor_error_of_init_error _ _ _ _ hT
    unfold std_array_init
    have hgt : ((pack.map (Arg.of_element coordinate_T)).length : Int) > num_dimensions := by
      rw [hmaplen]; exact h
    rw [if_pos hgt]
  have hok : ∀ p : Point coordinate_T num_dimensions,
      Point.ctor coordinate_T num_dimensions (pack.map (Arg.of_element coordinate_T)) = .ok p →
        (pack.length : Int) = num_dimensions ∧ p.m_coordinates = pack.map (fun q => q.2.2) := by
    intro p hp
    rw [ctor_ok_iff] at hp
    have hlen : (pack.length : Int) = num_dimensions := by rw [← hmaplen]; exact hp.2
    have hinit := std_array_init_exact _ _ _ _ hp.1 hp.2
    rw [init_elements_of_element] at hinit
    exact ⟨hlen, (Except.ok.inj hinit).symm⟩
  refine ⟨hN, ⟨?_, ?_⟩, ?_, hlt, hgt, ?_⟩
  · rintro ⟨p, hp⟩
    exact (hok p hp).1
  · intro hlen
    have hinit : std_array_init coordinate_T num_dimensions
        (pack.map (Arg.of_element coordinate_T)) = .ok (pack.map (fun q => q.2.2)) := by
      unfold std_array_init
      have hgt' : ¬ (((pack.map (Arg.of_element coordinate_T)).length : Int) >
          num_dimensions) := by
        rw [hmaplen]; omega
      rw [if_neg hgt', init_elements_of_element]
      have hz : num_dimensions.toNat - (pack.map (fun q => q.2.2)).length = 0 := by
        simp only [List.length_map]; omega
      simp only [hz, List.replicate_zero, List.append_nil]
    obtain ⟨p, hp, _⟩ := ctor_ok_of_init_ok _ _ _ _ hT hinit (by rw [hmaplen]; exact hlen)
    exact ⟨p, hp⟩
  · intro hne
    rcases lt_or_gt_of_ne hne with h | h
    · exact ⟨_, hlt h⟩
    · exact ⟨_, hgt h⟩
  · intro p hp
    obtain ⟨hlen, hm⟩ := hok p hp
    refine ⟨hm, p.size_eq, ?_⟩
    rw [hm, List.length_map]

/-- Witness of C11: `Point<int, 3>` accepts three values and rejects two and four. -/
theorem ctor_arity_witness :
    Point.static_asserts int_type 3 = .ok () ∧
    (∃ p : Point int_type 3,
      Point.ctor int_type 3
        [Arg.prvalue .int (1 : Int), Arg.prvalue .int (2 : Int), Arg.prvalue .int (3 : Int)]
        = .ok p) ∧
    Point.ctor int_type 3 [Arg.prvalue .int (1 : Int), Arg.prvalue .int (2 : Int)] =
      .error (.static_assert "Wrong number of initializer list values for Point") ∧
    Point.ctor int_type 3
      [Arg.prvalue .int (1 : Int), Arg.prvalue .int (2 : Int), Arg.prvalue .int (3 : Int),
        Arg.prvalue .int (4 : Int)] = .error .too_many_initializers :=
  ⟨rfl,
    (ctor_arity int_type 3
      [(false, false, (1 : Int)), (false, false, (2 : Int)), (false, false, (3 : Int))]
      rfl (by decide)).2.1.2 rfl,
    (ctor_arity int_type 3 [(false, false, (1 : Int)), (false, false, (2 : Int))]
      rfl (by decide)).2.2.2.1 (by decide),
    (ctor_arity int_type 3
      [(false, false, (1 : Int)), (false, false, (2 : Int)), (false, false, (3 : Int)),
        (false, false, (4 : Int))]
      rfl (by decide)).2.2.2.2.1 (by decide)⟩

/-- C15: for a mutable `Point` of dimension `N`, a position `k` in `[0, N)` and a value `v`:
the mutable accessors `at<k>()`, `at(k)` and `operator[](k)` return the reference to
position `k`, and assignment of `v` through it leaves the coordinate at every other
position as it was and the number of coordinates at `N`. -/
theorem store_frame {coordinate_T : CppType} {num_dimensions : Int}
    (p : Point coordinate_T num_dimensions) (k : Int) (v : coordinate_T.val)
    (h0 : 0 ≤ k) (h1 : k < num_dimensions) :
    p.at_idx k = .ok { position := k } ∧
    p.at_coord { underlying := k } = .ok { position := k } ∧
    (p.at_ k).result = .ok { position := k } ∧
    p.subscript k = { position := k } ∧
    ∃ q : Point coordinate_T num_dimensions,
      p.store { position := k } v = some q ∧
      (∀ j : Int, j ≠ k → q.element j = p.element j) ∧
      (∀ j : Int, 0 ≤ j → j < num_dimensions → j ≠ k →
        q.load { position := j } = p.load { position := j } ∧
        q.m_coordinates[j.toNat]? = p.m_coordinates[j.toNat]?) ∧
      (q.m_coordinates.length : Int) = num_dimensions ∧
      q.m_coordinates.length = p.m_coordinates.length := by
  have hn : ¬ (k < 0 ∨ k ≥ num_dimensions) := by omega
  refine ⟨by simp [Point.at_idx, h0, h1],
    by simp [Point.at_coord, Point.at_idx, coords_e.to_int, h0, h1],
    by simp [Point.at_, hn], rfl, ?_⟩
  refine ⟨{ m_coordinates := p.m_coordinates.set k.toNat v
            size_eq := by rw [List.length_set]; exact p.size_eq
            instantiated := p.instantiated }, ?_, ?_, ?_, ?_, ?_⟩
  · simp [Point.store, h0, h1]
  · intro j hj
    unfold Point.element
    by_cases hj0 : 0 ≤ j
    · have hne : k.toNat ≠ j.toNat := by omega
      simp only [hj0, if_true]
      exact List.getElem?_set_ne hne
    · simp [hj0]
  · intro j hj0 _ hj
    have hne : k.toNat ≠ j.toNat := by omega
    refine ⟨?_, List.getElem?_set_ne hne⟩
    simp only [Point.load, Point.element, hj0, if_true]
    exact List.getElem?_set_ne hne
  · simp only [List.length_set]
    exact p.size_eq
  · simp only [List.length_set]

/-- Witness of C15: on `Point<int, 3>{ 1, 2, 3 }`, `p.at(1) = 7` leaves positions 0 and 2
at 1 and 3. -/
theorem store_frame_witness :
    (0 : Int) ≤ 1 ∧ (1 : Int) < 3 ∧
    ∃ q : Point int_type 3,
      point_1_2_3.store { position := 1 } (7 : Int) = some q ∧
      q.element 0 = some (1 : Int) ∧ q.element 2 = some (3 : Int) ∧
      (q.m_coordinates.length : Int) = 3 := by
  obtain ⟨_, _, _, _, q, hq, hframe, _, hlen, _⟩ :=
    store_frame point_1_2_3 1 (7 : Int) (by decide) (by decide)
  refine ⟨by decide, by decide, q, hq, ?_, ?_, hlen⟩
  · rw [hframe 0 (by decide)]; rfl
  · rw [hframe 2 (by decide)]; rfl

/-- C16 fails on the code: on a read-only `Point` the checked run-time accessor `at(i)`
yields no read-only access. The overload selected, `at(const int) const&`, declares the
non-const return type `coordinate_T&`, which does not bind to the coordinate of a const
`Point`, so the call is rejected at compile time, for every `Point` and every index (and
the `Point` is not modified through it either). The three other `const&` accessors,
declared with `const coordinate_T&`, bind and return the read-only reference to the
coordinate. -/
theorem at_const_rejected {coordinate_T : CppType} {num_dimensions : Int}
    (p : Point coordinate_T num_dimensions) (i : Int) :
    p.at_const i = .error .discards_qualifiers ∧
    (∀ call : Call coordinate_T num_dimensions, p.at_const i ≠ .ok call) ∧
    bind_returned_element true false = .error .discards_qualifiers ∧
    bind_returned_element true true = .ok () ∧
    bind_returned_element false false = .ok () ∧
    (0 ≤ i → i < num_dimensions →
      p.at_idx_const i = .ok { position := i } ∧
      p.at_coord_const { underlying := i } = .ok { position := i } ∧
      p.subscript_const i = { position := i } ∧
      ∃ c, p.m_coordinates[i.toNat]? = some c ∧ p.load_const { position := i } = some c) := by
  refine ⟨rfl, ?_, rfl, rfl, rfl, ?_⟩
  · intro call hcall
    rw [Point.at_const_eq_error] at hcall
    cases hcall
  · intro h0 h1
    obtain ⟨c, hc, he⟩ := p.element_of_in_range i h0 h1
    exact ⟨by simp [Point.at_idx_const, h0, h1],
      by simp [Point.at_coord_const, Point.at_idx_const, coords_e.to_int, h0, h1],
      rfl, c, hc, he⟩

/-- C12, as stated, fails: `make_point(7.8, 9.8f, 3.141596f)`, the call that `main` makes,
mixes `double` and `float`, and it is accepted: the later arguments, whose type `float`
differs from the element type `double`, are widened and stored. -/
theorem make_point_widens_counterexample :
    (Arg.prvalue .float float_9_8).type ≠
      (clean_first_typename (Arg.prvalue .double double_7_8)).base ∧
    make_point (Arg.prvalue .double double_7_8)
      [Arg.prvalue .float float_9_8, Arg.prvalue .float float_3_141596]
      = .ok point_7_8_9_8f_3_141596f ∧
    point_7_8_9_8f_3_141596f.m_coordinates = [double_7_8, float_9_8, float_3_141596] :=
  ⟨by decide, rfl, rfl⟩

/-- C12, amended: `make_point` fixes the element type `T` by the first argument, and it is
accepted exactly when `T` is a number type and every later argument converts to `T`
inside the braced initialiser without narrowing. A later argument of a different type is
then stored converted (widened: `float` to `double`, `int` to `long long`, with the value
kept); one whose conversion would narrow (`double` to `float`, `long long` to `int`), or
does not exist, makes the call rejected at compile time. -/
theorem make_point_accepts_iff (first_arg : Arg) (args : List Arg) :
    ((∃ p, make_point first_arg args = .ok p) ↔
      (((clean_first_typename first_arg).is_integral = true ∨
          (clean_first_typename first_arg).is_floating_point = true) ∧
        ∀ a ∈ args, ∃ c,
          list_init_convert a.type (clean_first_typename first_arg).base a.value = .ok c)) ∧
    (∀ p, make_point first_arg args = .ok p →
      ∀ (i : Nat) (a : Arg), args[i]? = some a →
        ∃ c, list_init_convert a.type (clean_first_typename first_arg).base a.value = .ok c ∧
          p.m_coordinates[i + 1]? = some c) ∧
    (∀ a ∈ args, ∀ e,
      list_init_convert a.type (clean_first_typename first_arg).base a.value = .error e →
        ∃ e', make_point first_arg args = .error e') ∧
    (∀ v, list_init_convert .float .double v = .ok v) ∧
    (∀ v, list_init_convert .int .long_long v = .ok v) ∧
    (∀ v, list_init_convert .double .float v = .error .narrowing_conversion) ∧
    (∀ v, list_init_convert .long_long .int v = .error .narrowing_conversion) := by
  have hbase : (clean_first_typename first_arg).base = first_arg.type := by
    rw [clean_first_typename_eq]
  have hfirst : ∃ c, list_init_convert first_arg.type (clean_first_typename first_arg).base
      first_arg.value = .ok c := by
    rw [hbase]
    exact ⟨_, list_init_convert_same _ _⟩
  have hstatic : Point.static_asserts (clean_first_typename first_arg)
      ((args.length : Int) + 1) = .ok () ↔
      ((clean_first_typename first_arg).is_integral = true ∨
        (clean_first_typename first_arg).is_floating_point = true) := by
    rw [static_asserts_ok_iff]
    constructor
    · intro h; exact h.2.1
    · intro h
      refine ⟨by omega, h, ?_, ?_⟩ <;>
        simp [clean_first_typename_eq, CppType.is_const, CppType.is_reference]
  have hacc : (∃ p, make_point first_arg args = .ok p) ↔
      (((clean_first_typename first_arg).is_integral = true ∨
          (clean_first_typename first_arg).is_floating_point = true) ∧
        ∀ a ∈ args, ∃ c,
          list_init_convert a.type (clean_first_typename first_arg).base a.value = .ok c) := by
    constructor
    · rintro ⟨p, hp⟩
      refine ⟨hstatic.1 p.instantiated, ?_⟩
      have hinit := (make_point_ok_iff_init first_arg args p).1 hp
      have hall := (init_elements_ok_iff _ _).1 ⟨_, hinit⟩
      intro a ha
      exact hall a (List.mem_cons_of_mem _ ha)
    · rintro ⟨hnum, hargs⟩
      have hall : ∀ a ∈ first_arg :: args, ∃ c,
          list_init_convert a.type (clean_first_typename first_arg).base a.value = .ok c := by
        intro a ha
        rcases List.mem_cons.1 ha with rfl | ha'
        · exact hfirst
        · exact hargs a ha'
      obtain ⟨vs, hvs⟩ := (init_elements_ok_iff _ _).2 hall
      have hl := init_elements_length _ _ _ hvs
      refine ⟨{ m_coordinates := vs
                size_eq := by
                  rw [hl]; simp only [List.length_cons, Nat.cast_add, Nat.cast_one]
                instantiated := hstatic.2 hnum }, ?_⟩
      rw [make_point_ok_iff_init]
      exact hvs
  refine ⟨hacc, ?_, ?_, fun _ => rfl, fun _ => rfl, fun _ => rfl, fun _ => rfl⟩
  · intro p hp i a ha
    have hinit := (make_point_ok_iff_init first_arg args p).1 hp
    exact init_elements_getElem _ _ _ hinit (i + 1) a (by simpa using ha)
  · intro a ha e he
    cases hmp : make_point first_arg args with
    | error e' => exact ⟨e', rfl⟩
    | ok p =>
      obtain ⟨c, hc⟩ := (hacc.1 ⟨p, hmp⟩).2 a ha
      rw [he] at hc
      cases hc

/-- Witness of the amended C12: `make_point(7.8f, 9.8f, 3.141596)`, the call that the
source keeps commented out, is rejected for the narrowing of its third argument. -/
theorem make_point_accepts_iff_witness :
    (¬ ∃ p, make_point (Arg.prvalue .float float_7_8)
      [Arg.prvalue .float float_9_8, Arg.prvalue .double double_3_141596] = .ok p) ∧
    make_point (Arg.prvalue .float float_7_8)
      [Arg.prvalue .float float_9_8, Arg.prvalue .double double_3_141596]
      = .error .narrowing_conversion := by
  refine ⟨?_, rfl⟩
  intro h
  obtain ⟨c, hc⟩ :=
    ((make_point_accepts_iff (Arg.prvalue .float float_7_8)
      [Arg.prvalue .float float_9_8, Arg.prvalue .double double_3_141596]).1.1 h).2
      (Arg.prvalue .double double_3_141596) (by simp)
  cases hc

/-- C13: for all strings `a`, `b`, `c`, `make_list_3(a, b, c)` is accepted and returns a
`List3` whose `one()`, `two()`, `three()` are `a`, `b`, `c`; `print_all` of the three
accessors writes `"{ "`, `a`, `", "`, `b`, `", "`, `c`, `" }"`, an empty string
contributing no character; for `make_list_3("yes", "", "")` the text is `{ yes, ,  }`. -/
theorem make_list_3_printed (a b c : String) :
    (∃ lst : List3, make_list_3 [a, b, c] = .ok lst ∧
      lst.one = a ∧ lst.two = b ∧ lst.three = c ∧
      print_all (Printable.std_string lst.one)
          [Printable.std_string lst.two, Printable.std_string lst.three] [] =
        [Insertion.literal "\x7b ", Insertion.element (Printable.std_string a),
          Insertion.literal ", ", Insertion.element (Printable.std_string b),
          Insertion.literal ", ", Insertion.element (Printable.std_string c),
          Insertion.literal " \x7d"] ∧
      written Printable.format
          (print_all (Printable.std_string lst.one)
            [Printable.std_string lst.two, Printable.std_string lst.three] []) =
        "\x7b " ++ a ++ ", " ++ b ++ ", " ++ c ++ " \x7d") ∧
    (∃ lst : List3, make_list_3 ["yes", "", ""] = .ok lst ∧
      written Printable.format
          (print_all (Printable.std_string lst.one)
            [Printable.std_string lst.two, Printable.std_string lst.three] []) =
        "\x7b yes, ,  \x7d") := by
  refine ⟨⟨List3.ctor a b c, rfl, rfl, rfl, rfl, rfl, ?_⟩, ⟨List3.ctor "yes" "" "", rfl, ?_⟩⟩
  · apply String.ext
    simp [written, print_all, print_all_impl, List3.one, List3.two, List3.three, List3.ctor,
      Insertion.text, Printable.format, String.data_join]
  · decide

/-- C14: `main` takes no input; its calls are all accepted at compile time; it writes to
`std::cout` exactly the line `{ 1, 2, 3, hello, 5, 3.14159, A }`, a newline, the line
`{ yes, ,  }` and a newline; control leaves it by `return 0`, not by an exception of
the checked accessor. Whatever the formatting of the values, the text has that shape. -/
theorem main_output :
    ∃ run : Execution, main = .ok run ∧
      written Printable.format run.cout =
        "\x7b 1, 2, 3, hello, 5, 3.14159, A \x7d\n\x7b yes, ,  \x7d\n" ∧
      run.outcome = .ok 0 ∧
      run.cout =
        [Insertion.literal "\x7b ", Insertion.element (Printable.int 1),
          Insertion.literal ", ", Insertion.element (Printable.int 2),
          Insertion.literal ", ", Insertion.element (Printable.int 3),
          Insertion.literal ", ", Insertion.element (Printable.c_str "hello"),
          Insertion.literal ", ", Insertion.element (Printable.float float_5),
          Insertion.literal ", ", Insertion.element (Printable.double double_3_14159),
          Insertion.literal ", ", Insertion.element (Printable.char 'A'),
          Insertion.literal " \x7d", Insertion.literal "\n",
          Insertion.literal "\x7b ", Insertion.element (Printable.std_string "yes"),
          Insertion.literal ", ", Insertion.element (Printable.std_string ""),
          Insertion.literal ", ", Insertion.element (Printable.std_string ""),
          Insertion.literal " \x7d", Insertion.literal "\n"] ∧
      ∀ format : Printable → String,
        written format run.cout =
          "\x7b " ++ format (Printable.int 1) ++ ", " ++ format (Printable.int 2) ++ ", " ++
            format (Printable.int 3) ++ ", " ++ format (Printable.c_str "hello") ++ ", " ++
            format (Printable.float float_5) ++ ", " ++
            format (Printable.double double_3_14159) ++ ", " ++
            format (Printable.char 'A') ++ " \x7d" ++ "\n" ++
            "\x7b " ++ format (Printable.std_string "yes") ++ ", " ++
            format (Printable.std_string "") ++ ", " ++
            format (Printable.std_string "") ++ " \x7d" ++ "\n" := by
  refine ⟨{ cout :=
              [Insertion.literal "\x7b ", Insertion.element (Printable.int 1),
                Insertion.literal ", ", Insertion.element (Printable.int 2),
                Insertion.literal ", ", Insertion.element (Printable.int 3),
                Insertion.literal ", ", Insertion.element (Printable.c_str "hello"),
                Insertion.literal ", ", Insertion.element (Printable.float float_5),
                Insertion.literal ", ", Insertion.element (Printable.double double_3_14159),
                Insertion.literal ", ", Insertion.element (Printable.char 'A'),
                Insertion.literal " \x7d", Insertion.literal "\n",
                Insertion.literal "\x7b ", Insertion.element (Printable.std_string "yes"),
                Insertion.literal ", ", Insertion.element (Printable.std_string ""),
                Insertion.literal ", ", Insertion.element (Printable.std_string ""),
                Insertion.literal " \x7d", Insertion.literal "\n"]
            outcome := .ok 0 }, rfl, by decide, rfl, rfl, ?_⟩
  intro format
  apply String.ext
  simp [written, Insertion.text, String.data_join]

end Packs
